import Mathlib

set_option maxRecDepth 8192

/-!
Shallow embedding of the download-resolution-and-range-streaming subsystem of
rossoflix-api (src/rossoflix-api/src/main.rs): the file locator
`find_downloaded_file`, the range parser `parse_range`, the range branch of the
request handler `download_and_stream`, and the chunked body stream built with
`ReaderStream::new(file).take(chunk_size as usize)`.

Conventions of the embedding:
- Rust strings are modelled as `List Char` (obtained from Lean `String` via
  `String.data`); `str::split` on a single character is `splitChar`.
- `u64` values are modelled as `Nat`; subtraction on `u64`, which in Rust
  panics on underflow (overflow checks are the defined semantics of the
  program; wrapping in release builds is still an arithmetic error), is
  `sub64 : Nat -> Nat -> Except Unit Nat` with `.error ()` on underflow.
  Code paths that can reach such a panic return `Except Unit _`, where
  `.error ()` is the panic.
- Effects of the environment (filesystem, child process, seek) are an oracle
  record `Env` fixed per request; directory contents are a `DirTree`.
-/

/-- Model of Rust `str::split(c)` over the character list of the string. It
always returns at least one (possibly empty) part, like the Rust iterator. -/
def splitChar (c : Char) : List Char → List (List Char)
  | [] => [[]]
  | x :: xs =>
    let r := splitChar c xs
    if x = c then [] :: r
    else
      match r with
      | [] => [[x]]
      | h :: t => (x :: h) :: t

/-- Model of `str::strip_prefix`: `some` of the remainder when `p` is a prefix
of `s`, otherwise `none`. -/
def stripPrefixChars : List Char → List Char → Option (List Char)
  | [], s => some s
  | _ :: _, [] => none
  | p :: ps, c :: cs => if c = p then stripPrefixChars ps cs else none

/-- Model of `str::starts_with`. -/
def startsWithChars (p s : List Char) : Bool :=
  (stripPrefixChars p s).isSome

/-- Model of Rust `str::parse::<u64>()`: an optional leading plus sign, then a
nonempty run of ASCII digits, value below 2 ^ 64; anything else is a parse
error (`none`). -/
def parseU64 (s : List Char) : Option Nat :=
  let digits :=
    match s with
    | '+' :: rest => rest
    | _ => s
  if digits ≠ [] ∧ digits.all (fun c => c.isDigit) then
    let v := digits.foldl (fun a c => a * 10 + (c.toNat - '0'.toNat)) 0
    if v < 2 ^ 64 then some v else none
  else none

/-- Checked `u64` subtraction: `.error ()` models the Rust underflow panic. -/
def sub64 (a b : Nat) : Except Unit Nat :=
  if b ≤ a then .ok (a - b) else .error ()

/-- Embedding of `parse_range` (main.rs lines 527-540). The outer `Except` is
the panic channel: `file_size - 1` on `u64` underflows when `file_size = 0`.
`.ok none` is the Rust return value `None`, `.ok (some (start, end))` is
`Some((start, end))`. `split('-')` is consumed by two `next()` calls, so only
the first two dash-separated parts matter. -/
def parse_range (range_str : List Char) (file_size : Nat) :
    Except Unit (Option (Nat × Nat)) :=
  match splitChar '-' range_str with
  | [] => .ok none
  | p0 :: rest =>
    match parseU64 p0 with
    | none => .ok none
    | some start =>
      let endRes : Except Unit (Option Nat) :=
        match rest with
        | [] => (sub64 file_size 1).map Option.some
        | p1 :: _ =>
          if p1 = [] then (sub64 file_size 1).map Option.some
          else
            match parseU64 p1 with
            | none => .ok none
            | some e => .ok (some e)
      match endRes with
      | .error e => .error e
      | .ok none => .ok none
      | .ok (some en) =>
        if start > en ∨ en ≥ file_size then .ok none
        else .ok (some (start, en))

/-- Definition following the words of claim C4 (and spec section 4.3): split
the string on the dash, require the left part to parse as a non-negative
integer (the start), default the end to `file_size - 1` when the right part is
empty or absent, otherwise require the right part to parse, and return
`some (start, end)` exactly when `start ≤ end` and `end < file_size`; any
parse failure or violated invariant yields `none`. -/
def parse_range_spec (range_str : List Char) (file_size : Nat) :
    Option (Nat × Nat) :=
  match splitChar '-' range_str with
  | [] => none
  | p0 :: rest =>
    match parseU64 p0 with
    | none => none
    | some start =>
      let endOpt : Option Nat :=
        match rest with
        | [] => some (file_size - 1)
        | p1 :: _ =>
          if p1 = [] then some (file_size - 1) else parseU64 p1
      match endOpt with
      | none => none
      | some en =>
        if start ≤ en ∧ en < file_size then some (start, en) else none

/-- Embedding of main.rs lines 490-491:
`parse_range(range, file_size).unwrap_or((0, file_size - 1))` followed by
`chunk_size = (end - start) + 1`. Rust evaluates the `unwrap_or` argument
`(0, file_size - 1)` after `parse_range` returns, whether or not the result
was `Some`, so `sub64 file_size 1` is evaluated on both branches. Returns
`(start, end, chunk_size)`. -/
def rangeWindow (range_str : List Char) (file_size : Nat) :
    Except Unit (Nat × Nat × Nat) :=
  match parse_range range_str file_size with
  | .error e => .error e
  | .ok pr =>
    match sub64 file_size 1 with
    | .error e => .error e
    | .ok d =>
      let se := pr.getD (0, d)
      match sub64 se.2 se.1 with
      | .error e => .error e
      | .ok diff => .ok (se.1, se.2, diff + 1)

/-- Default read-buffer capacity of `tokio_util::io::ReaderStream::new`
(4096 bytes), the stream constructor used at main.rs line 499. -/
def readerStreamCapacity : Nat := 4096

/-- Chunk sequence produced by `ReaderStream` over the bytes remaining after
the seek: repeatedly yield up to `cap` bytes until the input is exhausted.
Every yielded chunk is nonempty when the input is. -/
def chunksFrom (cap : Nat) (l : List Nat) : List (List Nat) :=
  if cap = 0 then []
  else if h : l = [] then []
  else l.take cap :: chunksFrom cap (l.drop cap)
termination_by l.length
decreasing_by
  have hl : 0 < l.length := List.length_pos.mpr h
  simp only [List.length_drop]
  omega

/-- Body bytes emitted by main.rs line 499,
`ReaderStream::new(file).take(chunk_size as usize)`, for a file whose byte
content is `file`, after `file.seek(SeekFrom::Start(start))`:
`futures_util::StreamExt::take` keeps the first `count` stream items, i.e. the
first `count` CHUNKS, and the emitted body is their concatenation. -/
def streamedRangeBody (file : List Nat) (start count : Nat) : List Nat :=
  (((chunksFrom readerStreamCapacity (file.drop start)).take count)).flatten

mutual

/-- Contents of a directory as seen by `tokio::fs::read_dir`: either the
directory cannot be read (`read_dir` returns `Err`) or it lists its entries. -/
inductive DirTree : Type where
  | unreadable : DirTree
  | readable : List DirEntry → DirTree

/-- One directory entry: a regular file, a subdirectory with its own contents,
or an entry that is neither a regular file nor a directory (skipped by the
locator). -/
inductive DirEntry : Type where
  | file : String → DirEntry
  | subdir : String → DirTree → DirEntry
  | other : String → DirEntry

end

mutual

/-- Embedding of `find_downloaded_file` (main.rs lines 405-424): a `read_dir`
failure returns `None`; otherwise scan the entries in order, returning the
first regular file whose name equals `filename`, recursing into
subdirectories. The returned path is the list of name components below the
base directory. -/
def find_downloaded_file (t : DirTree) (filename : String) :
    Option (List String) :=
  match t with
  | .unreadable => none
  | .readable es => findInEntries es filename

/-- The entry loop of `find_downloaded_file` (the `while let` at main.rs
line 411). -/
def findInEntries (es : List DirEntry) (filename : String) :
    Option (List String) :=
  match es with
  | [] => none
  | .file n :: rest =>
    if n = filename then some [n] else findInEntries rest filename
  | .subdir n sub :: rest =>
    match find_downloaded_file sub filename with
    | some p => some (n :: p)
    | none => findInEntries rest filename
  | .other _ :: rest => findInEntries rest filename

end

/-- Result of `Command::new("aria2c") ... .status().await` (main.rs lines
440-451): the spawn itself failed (`Err`), or the child exited and
`s.success()` is the given boolean. -/
inductive AgentResult : Type where
  | spawnError : AgentResult
  | exited : Bool → AgentResult
deriving DecidableEq, Repr

/-- The response headers and status built by the streaming part of
`download_and_stream`. `contentRange` is `(start, end, size)` for the header
value `bytes start-end/size`. -/
structure RangeResponse : Type where
  status : Nat
  contentRange : Option (Nat × Nat × Nat)
  acceptRanges : Bool
  contentLength : Nat
  contentType : String
deriving DecidableEq, Repr

/-- Return value of the handler: a response, or the Rust
`Err((StatusCode, String))` early return with its status code and the static
part of its message. -/
inductive Outcome : Type where
  | resp : RangeResponse → Outcome
  | err : Nat → String → Outcome
deriving DecidableEq, Repr

/-- Status code carried by an `Outcome`. -/
def outcomeStatus : Outcome → Nat
  | .resp r => r.status
  | .err s _ => s

/-- Per-request oracle for the effects `download_and_stream` performs, in
program order: `create_dir_all` (panics via `.unwrap()` when it fails), the
downloads directory at the first lookup (`dir1`), the aria2c invocation
result, the directory at the lookup after the download (`dir2`), then
`filepath.exists()`, `File::open`, `metadata()` (giving `fileSize`), and
`seek`. -/
structure Env : Type where
  mkdirOk : Bool
  dir1 : DirTree
  agent : AgentResult
  dir2 : DirTree
  fileExists : Bool
  openOk : Bool
  metaOk : Bool
  fileSize : Nat
  seekOk : Bool

/-- Magnet normalization (main.rs lines 434-438): keep a full magnet URI,
wrap a bare info-hash as `magnet:?xt=urn:btih:` followed by the hash. -/
def normalizeMagnet (magnet : String) : String :=
  if startsWithChars "magnet:?".data magnet.data then magnet
  else "magnet:?xt=urn:btih:" ++ magnet

/-- The Range header extraction of main.rs lines 484-487:
`headers.get(RANGE).and_then(to_str).and_then(strip_prefix("bytes="))`,
given the header value when one is present. -/
def rangeValueOf (rangeHeader : Option String) : Option (List Char) :=
  rangeHeader.bind (fun v => stripPrefixChars "bytes=".data v.data)

/-- The part of `download_and_stream` after a file path has been resolved
(main.rs lines 466-524): existence check (404), open (500), metadata (500),
then either the range branch (206 with `Content-Range`, `Accept-Ranges`,
`Content-Length = chunk_size`, `Content-Type: video/mp4`, after a seek that
can fail with 500) or the full response (200 with `Content-Type`,
`Content-Length = file_size`, `Accept-Ranges`). `rangeValue` is the Range
header value after `strip_prefix("bytes=")`. The `.error ()` outcome is the
underflow panic inside the range branch. -/
def streamFile (env : Env) (rangeValue : Option (List Char)) :
    Except Unit Outcome :=
  if env.fileExists = false then .ok (.err 404 "Video not found")
  else if env.openOk = false then .ok (.err 500 "Failed to open video file")
  else if env.metaOk = false then
    .ok (.err 500 "Failed to get video metadata")
  else
    match rangeValue with
    | some r =>
      match rangeWindow r env.fileSize with
      | .error e => .error e
      | .ok (start, en, chunkSize) =>
        if env.seekOk = false then .ok (.err 500 "Failed to seek file")
        else
          .ok (.resp
            { status := 206
              contentRange := some (start, en, env.fileSize)
              acceptRanges := true
              contentLength := chunkSize
              contentType := "video/mp4" })
    | none =>
      .ok (.resp
        { status := 200
          contentRange := none
          acceptRanges := true
          contentLength := env.fileSize
          contentType := "video/mp4" })

/-- Embedding of the `download_and_stream` handler (main.rs lines 425-525).
`rangeHeader` is the raw `Range` header value when one is present (the code
additionally drops a header that is not valid UTF-8, which a caller models by
passing `none`). The second component of the result is the list of magnet
URIs passed to invocations of the download agent, in order; its length is the
number of agent invocations. The handler performs no validation of
`filename` or `magnet`: it goes straight to `create_dir_all` and the first
lookup. -/
def download_and_stream (filename magnet : String)
    (rangeHeader : Option String) (env : Env) :
    Except Unit Outcome × List String :=
  if env.mkdirOk = false then (.error (), [])
  else
    match find_downloaded_file env.dir1 filename with
    | some _ => (streamFile env (rangeValueOf rangeHeader), [])
    | none =>
      match env.agent with
      | .spawnError =>
        (.ok (.err 500 "Download failed"), [normalizeMagnet magnet])
      | .exited false =>
        (.ok (.err 500 "Download failed"), [normalizeMagnet magnet])
      | .exited true =>
        match find_downloaded_file env.dir2 filename with
        | none =>
          (.ok (.err 500 "File not found after download"),
            [normalizeMagnet magnet])
        | some _ =>
          (streamFile env (rangeValueOf rangeHeader), [normalizeMagnet magnet])

/-! ## Helper lemmas -/

theorem parse_range_ok_some (s : List Char) (n a b : Nat)
    (h : parse_range s n = .ok (some (a, b))) : a ≤ b ∧ b < n := by
  unfold parse_range at h
  simp only [sub64, Except.map] at h
  repeat' split at h
  all_goals simp_all

theorem parse_range_spec_inv (s : List Char) (n a b : Nat)
    (h : parse_range_spec s n = some (a, b)) : a ≤ b ∧ b < n := by
  unfold parse_range_spec at h
  repeat' split at h
  all_goals try simp_all
  all_goals try (repeat' split at h)
  all_goals try simp_all
  all_goals omega

theorem iteNegMatch (start en n : Nat) :
    (if start > en ∨ en ≥ n then
       (Except.ok none : Except Unit (Option (Nat × Nat)))
     else .ok (some (start, en)))
    = .ok (if start ≤ en ∧ en < n then some (start, en) else none) := by
  by_cases h1 : start ≤ en <;> by_cases h2 : en < n <;>
    simp [h1, h2] <;> omega

theorem parse_range_eq_spec (s : List Char) (n : Nat) (hn : 1 ≤ n) :
    parse_range s n = .ok (parse_range_spec s n) := by
  have hsub : sub64 n 1 = .ok (n - 1) := by simp [sub64, hn]
  unfold parse_range parse_range_spec
  cases hsp : splitChar '-' s with
  | nil => rfl
  | cons p0 rest =>
    cases hp0 : parseU64 p0 with
    | none => simp [hp0]
    | some start =>
      simp only [hp0]
      cases rest with
      | nil =>
        simp only [hsub, Except.map]
        exact iteNegMatch start (n - 1) n
      | cons p1 rest2 =>
        by_cases hp1 : p1 = []
        · simp only [hp1, if_pos rfl, hsub, Except.map]
          exact iteNegMatch start (n - 1) n
        · simp only [if_neg hp1]
          cases hp1e : parseU64 p1 with
          | none => simp [hp1e]
          | some en =>
            simp only [hp1e]
            exact iteNegMatch start en n

theorem stripPrefixChars_append (p s : List Char) :
    stripPrefixChars p (p ++ s) = some s := by
  induction p with
  | nil => rfl
  | cons c cs ih => simp [stripPrefixChars, ih]

theorem rangeWindow_of_some (r : List Char) (n a b : Nat)
    (h : parse_range r n = .ok (some (a, b))) :
    rangeWindow r n = .ok (a, b, b - a + 1) := by
  obtain ⟨hab, hbn⟩ := parse_range_ok_some r n a b h
  have hn : 1 ≤ n := by omega
  unfold rangeWindow
  simp [h, sub64, hn, hab]

theorem rangeWindow_fallback (r : List Char) (n : Nat) (hn : 1 ≤ n)
    (h : parse_range r n = .ok none) :
    rangeWindow r n = .ok (0, n - 1, n) := by
  unfold rangeWindow
  simp [h, sub64, hn]

/-! ## Helper lemmas (continued) -/

theorem chunksFrom_cons (cap : Nat) (l : List Nat) (hcap : cap ≠ 0)
    (hl : l ≠ []) :
    chunksFrom cap l = l.take cap :: chunksFrom cap (l.drop cap) := by
  rw [chunksFrom]
  simp [hcap, hl]

theorem data_append (a b : String) : (a ++ b).data = a.data ++ b.data := rfl

theorem rangeValueOf_bytes (r : String) :
    rangeValueOf (some ("bytes=" ++ r)) = some r.data := by
  show stripPrefixChars "bytes=".data ("bytes=" ++ r).data = some r.data
  rw [data_append]
  exact stripPrefixChars_append _ _

theorem download_and_stream_found (f m : String) (rh : Option String)
    (env : Env) (hm : env.mkdirOk = true) (p : List String)
    (hf : find_downloaded_file env.dir1 f = some p) :
    download_and_stream f m rh env =
      (streamFile env (rangeValueOf rh), []) := by
  unfold download_and_stream
  simp [hm, hf]

theorem streamFile_range (env : Env) (r : List Char) (a b c : Nat)
    (hex : env.fileExists = true) (ho : env.openOk = true)
    (hmt : env.metaOk = true) (hs : env.seekOk = true)
    (hw : rangeWindow r env.fileSize = .ok (a, b, c)) :
    streamFile env (some r) =
      .ok (.resp { status := 206, contentRange := some (a, b, env.fileSize),
                   acceptRanges := true, contentLength := c,
                   contentType := "video/mp4" }) := by
  unfold streamFile
  simp [hex, ho, hmt, hs, hw]

/-! ## Concrete environments used by witnesses and counterexamples -/

/-- A request environment in which `movie.mp4` sits directly under the
downloads directory and every later effect succeeds; the located file has
`size` bytes. -/
def envStream (size : Nat) : Env :=
  { mkdirOk := true
    dir1 := .readable [.file "movie.mp4"]
    agent := .exited true
    dir2 := .readable []
    fileExists := true
    openOk := true
    metaOk := true
    fileSize := size
    seekOk := true }

/-- A request environment in which the downloads directory is empty at both
lookups and the download agent behaves as `ag`. -/
def envAbsent (ag : AgentResult) : Env :=
  { mkdirOk := true
    dir1 := .readable []
    agent := ag
    dir2 := .readable []
    fileExists := true
    openOk := true
    metaOk := true
    fileSize := 1000
    seekOk := true }

/-! ## Claims -/

/-- C3: for every request with a valid Range header `bytes=start-end`
(in the sense that `parse_range` accepts it, which by `parse_range_eq_spec`
is exactly `0 <= start <= end < fileSize`) against a located file, the
response is 206 Partial Content with `Content-Range: bytes start-end/size`,
`Content-Length = end - start + 1`, `Accept-Ranges: bytes`, and a
Content-Type header. -/
theorem c3_206_headers (f m : String) (env : Env) (r : String) (a b : Nat)
    (p : List String)
    (hm : env.mkdirOk = true) (hf : find_downloaded_file env.dir1 f = some p)
    (hex : env.fileExists = true) (ho : env.openOk = true)
    (hmt : env.metaOk = true) (hs : env.seekOk = true)
    (hr : parse_range r.data env.fileSize = .ok (some (a, b))) :
    download_and_stream f m (some ("bytes=" ++ r)) env =
      (.ok (.resp { status := 206, contentRange := some (a, b, env.fileSize),
                    acceptRanges := true, contentLength := b - a + 1,
                    contentType := "video/mp4" }), []) := by
  rw [download_and_stream_found f m _ env hm p hf, rangeValueOf_bytes]
  rw [streamFile_range env r.data a b (b - a + 1) hex ho hmt hs
    (rangeWindow_of_some r.data env.fileSize a b hr)]

/-- Witness for C3 at the scenario of the spec: `movie.mp4` of 1000 bytes,
`Range: bytes=900-`, giving 206 with `Content-Range: bytes 900-999/1000` and
`Content-Length = 100`. -/
theorem c3_206_headers_witness :
    download_and_stream "movie.mp4" "h" (some ("bytes=" ++ "900-"))
        (envStream 1000) =
      (.ok (.resp { status := 206, contentRange := some (900, 999, 1000),
                    acceptRanges := true, contentLength := 100,
                    contentType := "video/mp4" }), []) :=
  c3_206_headers "movie.mp4" "h" (envStream 1000) "900-" 900 999 ["movie.mp4"]
    rfl rfl rfl rfl rfl rfl rfl

/-- C2 amended: for a located file of positive size, a present but malformed
or out-of-bounds Range value after `bytes=` (one `parse_range` rejects) falls
back to the full-file WINDOW `(0, fileSize - 1)` served as 206 Partial
Content with `Content-Range: bytes 0-(size-1)/size` and
`Content-Length = size` - not as the 200 response used when no Range header
is supplied. -/
theorem c2_fallback_is_206 (f m : String) (env : Env) (r : String)
    (p : List String)
    (hm : env.mkdirOk = true) (hf : find_downloaded_file env.dir1 f = some p)
    (hex : env.fileExists = true) (ho : env.openOk = true)
    (hmt : env.metaOk = true) (hs : env.seekOk = true)
    (hn : 1 ≤ env.fileSize)
    (hr : parse_range r.data env.fileSize = .ok none) :
    download_and_stream f m (some ("bytes=" ++ r)) env =
      (.ok (.resp { status := 206,
                    contentRange := some (0, env.fileSize - 1, env.fileSize),
                    acceptRanges := true, contentLength := env.fileSize,
                    contentType := "video/mp4" }), []) := by
  rw [download_and_stream_found f m _ env hm p hf, rangeValueOf_bytes]
  rw [streamFile_range env r.data 0 (env.fileSize - 1) env.fileSize hex ho hmt
    hs (rangeWindow_fallback r.data env.fileSize hn hr)]

/-- Witness for the amended C2: the malformed value `bytes=abc` against a
1000-byte file yields 206 with the full-file window. -/
theorem c2_fallback_is_206_witness :
    download_and_stream "movie.mp4" "h" (some ("bytes=" ++ "abc"))
        (envStream 1000) =
      (.ok (.resp { status := 206, contentRange := some (0, 999, 1000),
                    acceptRanges := true, contentLength := 1000,
                    contentType := "video/mp4" }), []) :=
  c2_fallback_is_206 "movie.mp4" "h" (envStream 1000) "abc" ["movie.mp4"]
    rfl rfl rfl rfl rfl rfl (by decide) rfl

/-- Counterexample to C2 as stated: for the malformed Range header
`bytes=abc` against a located 1000-byte file the handler responds 206 with a
`Content-Range` header, which differs from the 200 no-Range response, so the
fallback is NOT `exactly as if no Range header had been supplied`. -/
theorem c2_counterexample :
    (download_and_stream "movie.mp4" "h" (some "bytes=abc")
        (envStream 1000)).1 =
      .ok (.resp { status := 206, contentRange := some (0, 999, 1000),
                   acceptRanges := true, contentLength := 1000,
                   contentType := "video/mp4" }) ∧
    (download_and_stream "movie.mp4" "h" none (envStream 1000)).1 =
      .ok (.resp { status := 200, contentRange := none,
                   acceptRanges := true, contentLength := 1000,
                   contentType := "video/mp4" }) ∧
    Outcome.resp { status := 206, contentRange := some (0, 999, 1000),
                   acceptRanges := true, contentLength := 1000,
                   contentType := "video/mp4" } ≠
      Outcome.resp { status := 200, contentRange := none,
                     acceptRanges := true, contentLength := 1000,
                     contentType := "video/mp4" } := by
  refine ⟨rfl, rfl, ?_⟩
  decide

/-- C5 amended: the streaming handler performs no parameter validation and
never produces a 400 response at all; an empty `filename` or `magnet` is
processed like any other value. -/
theorem c5_never_400 (f m : String) (rh : Option String) (env : Env)
    (out : Outcome)
    (h : (download_and_stream f m rh env).1 = .ok out) :
    outcomeStatus out ≠ 400 := by
  unfold download_and_stream streamFile at h
  repeat' split at h
  all_goals (try cases h)
  all_goals simp [outcomeStatus]

/-- Witness for the amended C5, instantiated at an empty filename whose
request ends in the 500 download-failure outcome. -/
theorem c5_never_400_witness :
    outcomeStatus (.err 500 "Download failed") ≠ 400 :=
  c5_never_400 "" "hash" none (envAbsent (.exited false))
    (.err 500 "Download failed") rfl

/-- Counterexample to C5 as stated: with an empty filename the handler does
not return 400 before filesystem or process activity; it runs the lookup,
invokes the download agent once (second component), and surfaces the agent
failure as 500. -/
theorem c5_counterexample :
    download_and_stream "" "hash" none (envAbsent (.exited false)) =
      (.ok (.err 500 "Download failed"), ["magnet:?xt=urn:btih:hash"]) ∧
    (500 : Nat) ≠ 400 :=
  ⟨rfl, by decide⟩

/-- C6 amended: when the file cannot be located after a download attempt has
been made, the response status is 500 Internal Server Error (message
`File not found after download`), not 404; the 404 branch is reserved for a
located path that fails the later existence check. -/
theorem c6_missing_after_download_is_500 (f m : String) (rh : Option String)
    (env : Env)
    (hm : env.mkdirOk = true)
    (h1 : find_downloaded_file env.dir1 f = none)
    (ha : env.agent = .exited true)
    (h2 : find_downloaded_file env.dir2 f = none) :
    (download_and_stream f m rh env).1 =
      .ok (.err 500 "File not found after download") := by
  unfold download_and_stream
  simp [hm, h1, ha, h2]

/-- Witness for the amended C6 at a concrete environment in which both
lookups fail and the agent reports success. -/
theorem c6_missing_after_download_is_500_witness :
    (download_and_stream "movie.mp4" "h" none (envAbsent (.exited true))).1 =
      .ok (.err 500 "File not found after download") :=
  c6_missing_after_download_is_500 "movie.mp4" "h" none
    (envAbsent (.exited true)) rfl rfl rfl rfl

/-- Counterexample to C6 as stated: a request whose file cannot be located
after the (successful) download attempt gets status 500, not the claimed
404. -/
theorem c6_counterexample :
    download_and_stream "movie.mp4" "h" none (envAbsent (.exited true)) =
      (.ok (.err 500 "File not found after download"),
        ["magnet:?xt=urn:btih:h"]) ∧
    (500 : Nat) ≠ 404 :=
  ⟨rfl, by decide⟩

/-- C7: when the target file is absent and the download agent fails to spawn
or exits unsuccessfully, the response is 500 Internal Server Error and the
agent was invoked exactly once - a single failed attempt, no retry. -/
theorem c7_failed_agent_500_once (f m : String) (rh : Option String)
    (env : Env)
    (hm : env.mkdirOk = true)
    (h1 : find_downloaded_file env.dir1 f = none)
    (ha : env.agent = .spawnError ∨ env.agent = .exited false) :
    (download_and_stream f m rh env).1 = .ok (.err 500 "Download failed") ∧
    (download_and_stream f m rh env).2.length = 1 := by
  unfold download_and_stream
  rcases ha with ha | ha <;> simp [hm, h1, ha]

/-- Witness for C7 at a concrete environment whose agent spawn fails. -/
theorem c7_failed_agent_500_once_witness :
    (download_and_stream "movie.mp4" "h" none (envAbsent .spawnError)).1 =
      .ok (.err 500 "Download failed") ∧
    (download_and_stream "movie.mp4" "h" none (envAbsent .spawnError)).2.length
      = 1 :=
  c7_failed_agent_500_once "movie.mp4" "h" none (envAbsent .spawnError)
    rfl rfl (Or.inl rfl)

/-- C8: on every single request the download agent is invoked at most once,
and when the first lookup already finds the target file it is not invoked at
all. -/
theorem c8_at_most_one_invocation (f m : String) (rh : Option String)
    (env : Env) :
    (download_and_stream f m rh env).2.length ≤ 1 ∧
    (∀ p, find_downloaded_file env.dir1 f = some p →
      (download_and_stream f m rh env).2 = []) := by
  unfold download_and_stream
  constructor
  · repeat' split
    all_goals simp
  · intro p hp
    repeat' split
    all_goals simp_all

/-- Witness for C8 at a concrete environment whose first lookup finds
`movie.mp4`. -/
theorem c8_at_most_one_invocation_witness :
    (download_and_stream "movie.mp4" "h" none (envStream 1000)).2.length ≤ 1 ∧
    (download_and_stream "movie.mp4" "h" none (envStream 1000)).2 = [] :=
  ⟨(c8_at_most_one_invocation "movie.mp4" "h" none (envStream 1000)).1,
    (c8_at_most_one_invocation "movie.mp4" "h" none (envStream 1000)).2
      ["movie.mp4"] rfl⟩

/-- C9: an unreadable root directory makes `find_downloaded_file` return
`none` (indistinguishable from an empty directory), and an unreadable
subdirectory met during traversal is likewise swallowed - the scan simply
continues with the remaining entries; the locator has no error channel at
all (its result type is `Option`). -/
theorem c9_locator_swallows_errors :
    (∀ fn, find_downloaded_file DirTree.unreadable fn = none) ∧
    (∀ fn, find_downloaded_file DirTree.unreadable fn =
      find_downloaded_file (DirTree.readable []) fn) ∧
    (∀ n rest fn,
      findInEntries (DirEntry.subdir n DirTree.unreadable :: rest) fn =
        findInEntries rest fn) :=
  ⟨fun _ => rfl, fun _ => rfl, fun _ _ _ => rfl⟩

/-- C10: for a located file of size 0, any Range header makes the handler
evaluate `file_size - 1` on u64, which underflows: inside `parse_range` for
an open-ended range, and in the eagerly evaluated `unwrap_or` fallback
`(0, file_size - 1)` for every other range value; the panic is reachable
from the handler. -/
theorem c10_zero_size_underflow :
    (∀ s : List Char, rangeWindow s 0 = .error ()) ∧
    parse_range "0-".data 0 = .error () ∧
    (download_and_stream "movie.mp4" "h" (some "bytes=0-") (envStream 0)).1 =
      .error () := by
  refine ⟨fun s => ?_, rfl, rfl⟩
  unfold rangeWindow
  cases h : parse_range s 0 with
  | error e => rfl
  | ok pr => simp [sub64]

/-- C4 amended (restricted to `1 <= file_size`, the sizes at which the
claimed total behavior is accurate): `parse_range` returns exactly what the
claim describes - split on the dash, left part must parse, right part
defaults to `file_size - 1` when empty or absent, `Some (start, end)` exactly
when `start <= end < file_size`, `None` otherwise - and every `some` result
satisfies the ByteRange invariant. -/
theorem c4_characterization (s : List Char) (n : Nat) (hn : 1 ≤ n) :
    parse_range s n = .ok (parse_range_spec s n) ∧
    ∀ a b, parse_range_spec s n = some (a, b) → a ≤ b ∧ b < n :=
  ⟨parse_range_eq_spec s n hn,
    fun a b h => parse_range_spec_inv s n a b h⟩

/-- Witness for the amended C4 at the open-ended range `900-` against a
1000-byte file. -/
theorem c4_characterization_witness :
    1 ≤ 1000 ∧
    parse_range "900-".data 1000 = .ok (parse_range_spec "900-".data 1000) :=
  ⟨by norm_num, (c4_characterization "900-".data 1000 (by norm_num)).1⟩

/-- Counterexample to C4 as stated (for every file size): at file size 0 the
open-ended range `0-` makes `parse_range` evaluate `0 - 1` on u64 and panic,
instead of returning the `None` the claim promises for a violated
invariant. -/
theorem c4_counterexample :
    parse_range "0-".data 0 = .error () ∧
    parse_range_spec "0-".data 0 = none ∧
    (Except.error () : Except Unit (Option (Nat × Nat))) ≠ .ok none :=
  ⟨rfl, rfl, by simp⟩

/-- C1 failing evaluation: for the valid request `bytes=0-0` against a
4097-byte file the window is `(start, end, chunk_size) = (0, 0, 1)`, yet the
emitted body - `ReaderStream` chunks of up to 4096 bytes, of which
`StreamExt::take` keeps the first `chunk_size` CHUNKS - is 4096 bytes long
and is not the requested 1-byte slice: the stream does not stop once the
cumulative byte count reaches `end - start + 1`. -/
theorem c1_take_counts_chunks_not_bytes :
    rangeWindow "0-0".data 4097 = .ok (0, 0, 1) ∧
    (streamedRangeBody (List.replicate 4097 0) 0 1).length = 4096 ∧
    ((List.replicate 4097 (0 : Nat)).drop 0).take 1 ≠
      streamedRangeBody (List.replicate 4097 0) 0 1 := by
  have hne : (List.replicate 4097 (0 : Nat)) ≠ [] :=
    List.ne_nil_of_length_pos (by rw [List.length_replicate]; omega)
  have hbody : streamedRangeBody (List.replicate 4097 0) 0 1
      = List.replicate 4096 (0 : Nat) := by
    unfold streamedRangeBody readerStreamCapacity
    rw [List.drop_zero, chunksFrom_cons 4096 _ (by omega) hne]
    rw [List.take_succ_cons, List.take_zero, List.flatten_cons,
      List.flatten_nil, List.append_nil, List.take_replicate]
    norm_num
  refine ⟨rfl, ?_, ?_⟩
  · rw [hbody, List.length_replicate]
  · rw [hbody]
    intro hcontra
    have hlen := congrArg List.length hcontra
    rw [List.length_take, List.length_drop, List.length_replicate,
      List.length_replicate] at hlen
    omega
